import Mathlib

/-!
Verification of the runtime type algebra in `wandb/sdk/interface/dtypes.py`.

Shallow embedding notes, established by tracing the source:

* The `params` property (dtypes.py:167-171) initialises the `_params`
  attribute when it is absent and then executes `return {}` — it returns a
  fresh empty dict, not `self._params`.  Consequently every
  `self.params.update({...})` performed by a constructor mutates a
  temporary dict that is immediately discarded, and `_params` (the only
  instance attribute ever written anywhere in the file) is always the empty
  dict.  The observable state of a descriptor instance is therefore exactly
  its class, which is what the `Instance` structure below records; the
  discarded constructor computations are still embedded (see
  `params_update` and the `*_init` definitions) so that the data flow of
  each `__init__` stays visible.

* Machine integers do not occur; Python ints are unbounded and are modelled
  by `Int`.  Python floats are classified only by their class (never
  inspected numerically), so `PyVal.float` carries an uninterpreted payload.

* Exceptions are modelled with `Except PyErr`.  The `msg` payloads of
  `typeError`/`attributeError` are indicative strings; claims only
  distinguish error kinds (and `keyError` keys).

* Recursive procedures are written with an explicit fuel parameter so that
  they compute by kernel reduction; the public wrappers supply fuel
  strictly larger than the recursion depth (a shortfall would surface as
  the distinguished `PyErr.fuelExhausted`, which no theorem below accepts).
-/

/-- The closed set of built-in variant classes registered in
dtypes.py:606-621.  `text` is `StringType` (its wire name is `"text"`),
`dict` is `DictType` (wire name `"dictionary"`). -/
inductive WBClass where
  | never
  | any
  | unknown
  | none
  | text
  | number
  | boolean
  | object
  | const
  | union
  | list
  | dict
deriving DecidableEq

/-- A descriptor instance.  Because the `params` getter (dtypes.py:167-171)
returns a fresh `\x7b\x7d` and `_params` is never read anywhere else, the only
observable state of a Python `Type` instance is its class. -/
structure Instance where
  cls : WBClass
deriving DecidableEq

/-- The class-level `name` attribute of each variant (dtypes.py:254, 266,
282, 290, 295, 300, 305, 312, 327, 415, 471, 551). -/
def wbName : WBClass → String
  | .never => "never"
  | .any => "any"
  | .unknown => "unknown"
  | .none => "none"
  | .text => "text"
  | .number => "number"
  | .boolean => "boolean"
  | .object => "object"
  | .const => "const"
  | .union => "union"
  | .list => "list"
  | .dict => "dictionary"

/-- Python exceptions raised (or crashed into) by the embedded code.
`fuelExhausted` is not a Python error: it marks insufficient fuel in the
executable embedding and is never produced when the wrappers' fuel bound
covers the recursion depth. -/
inductive PyErr where
  | typeError (msg : String)
  | keyError (key : String)
  | attributeError (msg : String)
  | assertionError
  | fuelExhausted
deriving DecidableEq

/-- Native Python values as far as the type algebra inspects them: the
scalar classes registered in `types_by_class`, the four list-like classes
accepted by `ListType`, dicts (string keys, as assumed by `DictType`), and
a fallback `obj` carrying only `__class__.__name__` for any other object. -/
inductive PyVal where
  | none
  | bool (b : Bool)
  | int (n : Int)
  | float (payload : Int)
  | str (s : String)
  | list (xs : List PyVal)
  | tuple (xs : List PyVal)
  | set (xs : List PyVal)
  | frozenset (xs : List PyVal)
  | dict (entries : List (String × PyVal))
  | obj (class_name : String)

/-- A decoded params object as produced by `_json_obj_to_params_obj`
(dtypes.py:127-142): a scalar, a resolved nested descriptor, or a
list/dict of such.  (JSON decoding never yields Python classes, sets or
tuples; those shapes therefore do not occur here.) -/
inductive PObj where
  | val (v : PyVal)
  | ty (t : Instance)
  | list (xs : List PObj)
  | dict (es : List (String × PObj))

/-- The JSON-compatible wire values handled by `to_json`/`from_json`. -/
inductive J where
  | null
  | bool (b : Bool)
  | num (n : Int)
  | str (s : String)
  | arr (xs : List J)
  | obj (es : List (String × J))

/-- `v is None` in the sense of Python `==` against `None`, as used by the
`None not in py_list` test in `ListType.from_obj` (dtypes.py:497). -/
def pyIsNone : PyVal → Bool
  | .none => true
  | _ => false

/-- The `isinstance(py_obj, (list, tuple, set, frozenset))` test of
`ListType.assign` (dtypes.py:525-530) and `ListType.from_obj`. -/
def pyIsListLike : PyVal → Bool
  | .list _ => true
  | .tuple _ => true
  | .set _ => true
  | .frozenset _ => true
  | _ => false

/-- `isinstance(py_obj, dict)` (dtypes.py:594). -/
def pyIsDict : PyVal → Bool
  | .dict _ => true
  | _ => false

/-- `isinstance(val, set)` (dtypes.py:337); Python `frozenset` is not a
subclass of `set`. -/
def pyIsSet : PyVal → Bool
  | .set _ => true
  | _ => false

/-- `isinstance(val, list)` (dtypes.py:339). -/
def pyIsList : PyVal → Bool
  | .list _ => true
  | _ => false

/-- Python truthiness of the scalar values that can appear in decoded
params. -/
def pyvTruthy : PyVal → Bool
  | .none => false
  | .bool b => b
  | .int n => n != 0
  | .float p => p != 0
  | .str s => s != ""
  | .list xs => !xs.isEmpty
  | .tuple xs => !xs.isEmpty
  | .set xs => !xs.isEmpty
  | .frozenset xs => !xs.isEmpty
  | .dict es => !es.isEmpty
  | .obj _ => true

/-- Python truthiness of a decoded params object (descriptor instances are
ordinary objects, hence truthy). -/
def pobjTruthy : PObj → Bool
  | .val v => pyvTruthy v
  | .ty _ => true
  | .list xs => !xs.isEmpty
  | .dict es => !es.isEmpty

/-- Embeds the `params` property (dtypes.py:167-171): the getter sets
`self._params = \x7b\x7d` when the attribute is absent and then returns a fresh
empty dict — not `self._params` — so every read yields the empty mapping,
whatever the constructor supplied. -/
def Type_params (_self : Instance) : List (String × PObj) := []

/-- Embeds `self.params.update({...})` as performed by every constructor:
the getter hands back a fresh empty dict, the update mutates that
temporary, and the instance is left unchanged.  The argument records the
mapping the constructor tried to store. -/
def params_update (self : Instance) (_kvs : List (String × PObj)) : Instance :=
  self

/-- `str(type)` (dtypes.py:238-239): `"<WBType:{} | {}>".format(self.name,
self.params)` with `params` always rendering as the empty dict. -/
def py_str_key (i : Instance) : String :=
  "<WBType:" ++ wbName i.cls ++ " | \x7b\x7d>"

/-- Embeds `Type.to_json` (dtypes.py:195-216): the result starts as
`{"wb_type": name, "params": encoded}`, and because the `params` getter
yields the empty dict the encoded params are `\x7b\x7d` and the key is deleted
(dtypes.py:213-214).  Hence every descriptor serialises to the single-key
object below. -/
def to_json (self : Instance) : J :=
  J.obj [("wb_type", J.str (wbName self.cls))]

/-- Fuelled structural equality on JSON trees, modelling Python `==` on
the values produced by `to_json`.  (Python dict equality ignores key
order; all objects compared through this function are the single-key
results of `to_json`, for which order is immaterial.) -/
def jEqF : Nat → J → J → Bool
  | 0, _, _ => false
  | fuel+1, a, b =>
    match a, b with
    | .null, .null => true
    | .bool x, .bool y => x == y
    | .num x, .num y => x == y
    | .str x, .str y => x == y
    | .arr xs, .arr ys =>
      xs.length == ys.length && (List.zip xs ys).all (fun p => jEqF fuel p.1 p.2)
    | .obj es, .obj fs =>
      es.length == fs.length &&
        (List.zip es fs).all (fun p => p.1.1 == p.2.1 && jEqF fuel p.1.2 p.2.2)
    | _, _ => false

/-- Embeds `Type.__eq__` (dtypes.py:241-246): two descriptors are equal iff
their `to_json()` outputs are equal (the `self is other` fast path implies
equal serialisations and needs no separate case).  Every `to_json` output
is a depth-2 tree (a single-key object holding a string), so fuel 3 makes
`jEqF` coincide with unbounded structural equality here. -/
def py_eq (a b : Instance) : Bool :=
  jEqF 3 (to_json a) (to_json b)

/-- `TypeRegistry.type_from_dtype` (dtypes.py:64-107) applied to an
argument that is already a `Type` instance: returned unchanged
(dtypes.py:67-68).  This is the only shape of argument the claims feed to
the compound constructors. -/
def type_from_dtype_inst (dtype : Instance) : Instance :=
  dtype

/-- The branch list computed by `UnionType.__init__` (dtypes.py:418-427):
`[]` for `None`, otherwise `type_from_dtype` mapped over the given list.
No flattening and no sorting happen here; the list is then passed to
`self.params.update` and discarded by the getter. -/
def unionInit_wb_types (allowed_types : Option (List Instance)) : List Instance :=
  match allowed_types with
  | Option.none => []
  | Option.some l => l.map type_from_dtype_inst

/-- `UnionType.__init__` (dtypes.py:418-427). -/
def UnionType_init (allowed_types : Option (List Instance)) : Instance :=
  params_update ⟨.union⟩
    [("allowed_types", PObj.list ((unionInit_wb_types allowed_types).map PObj.ty))]

/-- The element type computed by `ListType.__init__` (dtypes.py:474-480):
`UnknownType()` for `None`, otherwise `type_from_dtype`. -/
def listInit_wb_type : Option Instance → Instance
  | Option.none => ⟨.unknown⟩
  | Option.some t => type_from_dtype_inst t

/-- `ListType.__init__` (dtypes.py:474-480). -/
def ListType_init (element_type : Option Instance) : Instance :=
  params_update ⟨.list⟩ [("element_type", PObj.ty (listInit_wb_type element_type))]

/-- `DictType.__init__` (dtypes.py:554-565); `None` means the empty map. -/
def DictType_init (type_map : Option (List (String × Instance))) : Instance :=
  params_update ⟨.dict⟩
    [("type_map",
      PObj.dict (((type_map.getD []).map
        (fun kv => (kv.1, PObj.ty (type_from_dtype_inst kv.2))))))]

/-- `ObjectType.__init__` (dtypes.py:315-316). -/
def ObjectType_init (class_name : String) : Instance :=
  params_update ⟨.object⟩ [("class_name", PObj.val (PyVal.str class_name))]

/-- `ConstType.__init__` on a native value (dtypes.py:330-342).  The
membership test at dtypes.py:331 constructs a `TypeError` for unsupported
classes but never raises it, so it has no effect.  When `is_set` is truthy
or `val` is a `set`, the assertion at dtypes.py:339 requires `val` to be a
`set` or `list`, and `val` is replaced by `set(val)`. -/
def ConstType_init (val : PyVal) (is_set : Bool) : Except PyErr Instance :=
  if is_set || pyIsSet val then
    if pyIsSet val || pyIsList val then
      Except.ok (params_update ⟨.const⟩
        [("val", PObj.val val), ("is_set", PObj.val (PyVal.bool true))])
    else
      Except.error PyErr.assertionError
  else
    Except.ok (params_update ⟨.const⟩
      [("val", PObj.val val), ("is_set", PObj.val (PyVal.bool is_set))])

/-- Dispatch of `assign_type` over the variant of `self`:
`NeverType.assign_type` (dtypes.py:257-258) returns `self`;
`AnyType.assign_type` (dtypes.py:269-274) returns `self` unless the
argument is `NoneType`/`NeverType`; `UnknownType.assign_type`
(dtypes.py:285-286) returns the argument unless it is `NoneType`;
`UnionType.assign_type` (dtypes.py:439-451), `ListType.assign_type`
(dtypes.py:512-520) and `DictType.assign_type` (dtypes.py:575-589) read
`params["allowed_types"]` / `["element_type"]` / `["type_map"]`, which
raises `KeyError` because the `params` getter returns the empty dict
(for `ListType`/`DictType` only after the `isinstance` guard, otherwise
they fall through to `NeverType()`); all remaining variants use the base
`Type.assign_type` (dtypes.py:188-193), which compares classes and the
(always empty, hence always equal) params. -/
def instance_assign_type (self other : Instance) : Except PyErr Instance :=
  match self.cls with
  | .never => Except.ok self
  | .any =>
    Except.ok (if other.cls = .none ∨ other.cls = .never then ⟨.never⟩ else self)
  | .unknown =>
    Except.ok (if other.cls = .none then ⟨.never⟩ else other)
  | .union => Except.error (PyErr.keyError "allowed_types")
  | .list =>
    if other.cls = .list then Except.error (PyErr.keyError "element_type")
    else Except.ok ⟨.never⟩
  | .dict =>
    if other.cls = .dict then Except.error (PyErr.keyError "type_map")
    else Except.ok ⟨.never⟩
  | _ =>
    Except.ok (if other.cls = self.cls then self else ⟨.never⟩)

mutual

/-- Structural size of a Python value, used only for fuel bounds. -/
def pySize : PyVal → Nat
  | .none => 1
  | .bool _ => 1
  | .int _ => 1
  | .float _ => 1
  | .str _ => 1
  | .list xs => 1 + pySizeL xs
  | .tuple xs => 1 + pySizeL xs
  | .set xs => 1 + pySizeL xs
  | .frozenset xs => 1 + pySizeL xs
  | .dict es => 1 + pySizeD es
  | .obj _ => 1

/-- Structural size of a list of Python values. -/
def pySizeL : List PyVal → Nat
  | [] => 1
  | x :: rest => 1 + pySize x + pySizeL rest

/-- Structural size of a string-keyed map of Python values. -/
def pySizeD : List (String × PyVal) → Nat
  | [] => 1
  | (_, v) :: rest => 1 + pySize v + pySizeD rest

end

/-- Fuel bound for the `type_of`/`assign` recursion: strictly larger than
the number of nested calls performed on a value (each recursion step both
consumes one unit and descends into a structurally smaller value, or moves
to the next stage on the same value in at most four steps). -/
def pyFuel (v : PyVal) : Nat :=
  4 * pySize v + 4

mutual

/-- `TypeRegistry.type_of` (dtypes.py:42-50): the value's class is looked
up in `types_by_class` (populated at dtypes.py:606-621: `NoneType` for
`None`, `StringType` for `str`, `NumberType` for `int`/`float`,
`BooleanType` for `bool`, `ListType` for `list`/`tuple`/`set`/`frozenset`,
`DictType` for `dict`); the handler's `from_obj` builds the descriptor,
and unregistered classes fall back to `ObjectType.from_obj`
(dtypes.py:318-320), whose `class_name` argument the `params` getter then
discards. -/
def type_ofF : Nat → PyVal → Except PyErr Instance
  | 0, _ => Except.error PyErr.fuelExhausted
  | _+1, .none => Except.ok ⟨.none⟩
  | _+1, .bool _ => Except.ok ⟨.boolean⟩
  | _+1, .int _ => Except.ok ⟨.number⟩
  | _+1, .float _ => Except.ok ⟨.number⟩
  | _+1, .str _ => Except.ok ⟨.text⟩
  | fuel+1, .list xs => listType_from_objF fuel xs
  | fuel+1, .tuple xs => listType_from_objF fuel xs
  | fuel+1, .set xs => listType_from_objF fuel xs
  | fuel+1, .frozenset xs => listType_from_objF fuel xs
  | fuel+1, .dict es => dictType_from_objF fuel es
  | _+1, .obj cn => Except.ok (ObjectType_init cn)

/-- `ListType.from_obj` (dtypes.py:482-510) on a list-like value.  When the
collection contains `None`, the seed element type is
`OptionalType(UnknownType())` (dtypes.py:497); `OptionalType`
(dtypes.py:454-464) calls `TypeRegistry.type_from_dtype(ConvertableToType)`
— the module-level typing alias, not its `dtype` parameter — and
`type_from_dtype` reaches `issubclass(dtype, Type)` (dtypes.py:71) with a
non-class argument, which raises `TypeError`.  Otherwise the elements are
folded through `assign` starting from `UnknownType()`, a `NeverType`
result raising the `TypeError` at dtypes.py:502, and the final element
type is handed to `ListType.__init__` (which discards it). -/
def listType_from_objF : Nat → List PyVal → Except PyErr Instance
  | 0, _ => Except.error PyErr.fuelExhausted
  | fuel+1, xs =>
    if xs.any pyIsNone then
      Except.error (PyErr.typeError "issubclass() arg 1 must be a class")
    else
      match listFoldF fuel ⟨.unknown⟩ xs with
      | Except.error e => Except.error e
      | Except.ok elm => Except.ok (ListType_init (Option.some elm))

/-- The element loop of `ListType.from_obj` (dtypes.py:499-508). -/
def listFoldF : Nat → Instance → List PyVal → Except PyErr Instance
  | 0, _, _ => Except.error PyErr.fuelExhausted
  | _+1, elm, [] => Except.ok elm
  | fuel+1, elm, x :: rest =>
    match instance_assignF fuel elm x with
    | Except.error e => Except.error e
    | Except.ok r =>
      if r.cls = .never then
        Except.error (PyErr.typeError "List contained incompatible types")
      else
        listFoldF fuel r rest

/-- `DictType.from_obj` (dtypes.py:567-573): `type_of` each value (errors
propagate) and hand the map to `DictType.__init__` (which discards it). -/
def dictType_from_objF : Nat → List (String × PyVal) → Except PyErr Instance
  | 0, _ => Except.error PyErr.fuelExhausted
  | fuel+1, es =>
    match dictValsF fuel es with
    | Except.error e => Except.error e
    | Except.ok tm => Except.ok (DictType_init (Option.some tm))

/-- The comprehension `{key: TypeRegistry.type_of(py_obj[key])}` of
`DictType.from_obj` (dtypes.py:573). -/
def dictValsF : Nat → List (String × PyVal) → Except PyErr (List (String × Instance))
  | 0, _ => Except.error PyErr.fuelExhausted
  | _+1, [] => Except.ok []
  | fuel+1, (k, v) :: rest =>
    match type_ofF fuel v with
    | Except.error e => Except.error e
    | Except.ok t =>
      match dictValsF fuel rest with
      | Except.error e => Except.error e
      | Except.ok ts => Except.ok ((k, t) :: ts)

/-- Dispatch of `assign` over the variant of `self`.  `UnionType.assign`
(dtypes.py:429-437) evaluates `self.params["allowed_types"]` first, which
raises `KeyError` (the getter returns the empty dict).  `ListType.assign`
(dtypes.py:522-538) reads `self.params["element_type"]` once the
list-likeness guard passes, raising `KeyError`, and returns `NeverType()`
for non-collections.  `DictType.assign` (dtypes.py:591-602) likewise
raises `KeyError` at `self.params["type_map"]` for dict arguments and
returns `NeverType()` otherwise.  Every other variant uses the base
`Type.assign` (dtypes.py:173-186): `self.assign_type(type_of(py_obj))`. -/
def instance_assignF : Nat → Instance → PyVal → Except PyErr Instance
  | 0, _, _ => Except.error PyErr.fuelExhausted
  | fuel+1, self, v =>
    match self.cls with
    | .union => Except.error (PyErr.keyError "allowed_types")
    | .list =>
      if pyIsListLike v then Except.error (PyErr.keyError "element_type")
      else Except.ok ⟨.never⟩
    | .dict =>
      if pyIsDict v then Except.error (PyErr.keyError "type_map")
      else Except.ok ⟨.never⟩
    | _ =>
      match type_ofF fuel v with
      | Except.error e => Except.error e
      | Except.ok t => instance_assign_type self t

end

/-- `TypeRegistry.type_of` with the fuel bound supplied. -/
def type_of (v : PyVal) : Except PyErr Instance :=
  type_ofF (pyFuel v) v

/-- `Type.assign` method dispatch with the fuel bound supplied. -/
def instance_assign (self : Instance) (v : PyVal) : Except PyErr Instance :=
  instance_assignF (pyFuel v) self v

/-- `_flatten_union_types` (dtypes.py:349-358): branches are copied in
order, but recursing into a `UnionType` branch reads its
`params["allowed_types"]`, which raises `KeyError` because the `params`
getter returns the empty dict. -/
def flatten_union_types : List Instance → Except PyErr (List Instance)
  | [] => Except.ok []
  | a :: rest =>
    if a.cls = .union then
      Except.error (PyErr.keyError "allowed_types")
    else
      match flatten_union_types rest with
      | Except.error e => Except.error e
      | Except.ok r => Except.ok (a :: r)

/-- Lexicographic strict order on character lists by code point, i.e.
Python's `<` on strings. -/
def strLtL : List Char → List Char → Bool
  | [], [] => false
  | [], _ :: _ => true
  | _ :: _, [] => false
  | a :: as, b :: bs =>
    if a.val.toNat < b.val.toNat then true
    else if b.val.toNat < a.val.toNat then false
    else strLtL as bs

/-- Python's `<` on strings (lexicographic by code point). -/
def pyStrLt (a b : String) : Bool :=
  strLtL a.data b.data

/-- Insertion of one element into an already sorted list, placing it after
existing elements with an equal key (the stability of Python's
`list.sort`). -/
def py_sort_insert (a : Instance) : List Instance → List Instance
  | [] => [a]
  | b :: rest =>
    if pyStrLt (py_str_key a) (py_str_key b) then a :: b :: rest
    else b :: py_sort_insert a rest

/-- `resolved_types.sort(key=str)` (dtypes.py:407): a stable sort by the
`__repr__` rendering. -/
def py_sort (ts : List Instance) : List Instance :=
  ts.foldl (fun acc t => py_sort_insert t acc) []

/-- The result of `_union_assigner`: either the `NeverType()` sentinel or
the resolved branch list. -/
inductive UAResult where
  | never
  | resolved (ts : List Instance)
deriving DecidableEq

/-- The branch loop of `_union_assigner` (dtypes.py:370-386).  The incoming
item is a native value (`Sum.inl`, value mode) or a descriptor
(`Sum.inr`, type mode) — at both call sites (dtypes.py:432, 447) the
`type_mode` flag agrees with the shape of the item, so the flag is
represented by the sum constructor and the `assert` at dtypes.py:378 never
fires.  Accumulates `resolved_types`, `valid` and `unknown_count`. -/
def union_assigner_go (x : Sum PyVal Instance) :
    List Instance → List Instance → Bool → Nat →
    Except PyErr (List Instance × Bool × Nat)
  | [], resolved, valid, ucount => Except.ok (resolved, valid, ucount)
  | a :: rest, resolved, valid, ucount =>
    if valid then
      union_assigner_go x rest (resolved ++ [a]) valid ucount
    else if a.cls = .unknown then
      union_assigner_go x rest resolved valid (ucount + 1)
    else
      match (match x with
             | Sum.inl v => instance_assign a v
             | Sum.inr t => instance_assign_type a t) with
      | Except.error e => Except.error e
      | Except.ok assigned =>
        if assigned.cls = .never then
          union_assigner_go x rest (resolved ++ [a]) valid ucount
        else
          union_assigner_go x rest (resolved ++ [assigned]) true ucount

/-- The tail of `_union_assigner` (dtypes.py:403-408): re-append the
unconsumed `Unknown` placeholders, flatten nested unions, sort by the
string rendering. -/
def union_assigner_finish (resolved : List Instance) (ucount : Nat) :
    Except PyErr UAResult :=
  match flatten_union_types (resolved ++ List.replicate ucount ⟨.unknown⟩) with
  | Except.error e => Except.error e
  | Except.ok flat => Except.ok (UAResult.resolved (py_sort flat))

/-- `_union_assigner` (dtypes.py:361-408).  After the branch loop, an
unmatched item either fails (`unknown_count == 0`), or consumes one
wildcard slot: in type mode the item itself is appended (dtypes.py:392-394)
— it is not passed through a fresh `Unknown` — while in value mode it is
resolved through `UnknownType().assign` (dtypes.py:396), which rejects the
absence-of-value marker. -/
def union_assigner (allowed_types : List Instance) (obj_or_type : Sum PyVal Instance) :
    Except PyErr UAResult :=
  match union_assigner_go obj_or_type allowed_types [] false 0 with
  | Except.error e => Except.error e
  | Except.ok (resolved, valid, ucount) =>
    if valid then
      union_assigner_finish resolved ucount
    else if ucount = 0 then
      Except.ok UAResult.never
    else
      match (match obj_or_type with
             | Sum.inr t => Except.ok t
             | Sum.inl v => instance_assign ⟨.unknown⟩ v) with
      | Except.error e => Except.error e
      | Except.ok nt =>
        if nt.cls = .never then Except.ok UAResult.never
        else union_assigner_finish (resolved ++ [nt]) (ucount - 1)

/-- First-match lookup in a JSON object's field list, modelling
`json_dict.get(key)` (field lists stand for Python dicts, whose keys are
distinct). -/
def jLookup : List (String × J) → String → Option J
  | [], _ => Option.none
  | (k, v) :: rest, key => if k = key then Option.some v else jLookup rest key

/-- `TypeRegistry.types_by_name()` after the registrations at
dtypes.py:606-621: wire name to variant class. -/
def lookup_types_by_name : String → Option WBClass
  | "never" => Option.some .never
  | "any" => Option.some .any
  | "unknown" => Option.some .unknown
  | "none" => Option.some .none
  | "text" => Option.some .text
  | "number" => Option.some .number
  | "boolean" => Option.some .boolean
  | "list" => Option.some .list
  | "dictionary" => Option.some .dict
  | "union" => Option.some .union
  | "object" => Option.some .object
  | "const" => Option.some .const
  | _ => Option.none

/-- `TypeRegistry.type_from_dtype` (dtypes.py:64-107) applied to a decoded
params object.  A `Type` instance passes through (dtypes.py:67-68).  Any
other decoded object is neither a `Type` instance nor a class, so the
unguarded `issubclass(dtype, Type)` at dtypes.py:71 raises `TypeError`
before the list/dict/constant branches can be reached. -/
def type_from_dtype_pobj : PObj → Except PyErr Instance
  | .ty t => Except.ok t
  | _ => Except.error (PyErr.typeError "issubclass() arg 1 must be a class")

/-- `type_from_dtype` mapped over a list of decoded objects, as in the
comprehensions at dtypes.py:425 and dtypes.py:562. -/
def dtypeList : List PObj → Except PyErr (List Instance)
  | [] => Except.ok []
  | p :: rest =>
    match type_from_dtype_pobj p with
    | Except.error e => Except.error e
    | Except.ok t =>
      match dtypeList rest with
      | Except.error e => Except.error e
      | Except.ok ts => Except.ok (t :: ts)

/-- First-match lookup among decoded keyword arguments. -/
def pLookup : List (String × PObj) → String → Option PObj
  | [], _ => Option.none
  | (k, v) :: rest, key => if k = key then Option.some v else pLookup rest key

/-- Whether every supplied keyword is one the constructor accepts; a
keyword outside the list makes the Python call raise `TypeError`. -/
def kwargsKeysOk (kwargs : List (String × PObj)) (allowed : List String) : Bool :=
  kwargs.all (fun kv => allowed.contains kv.1)

/-- `ConstType.__init__` on a decoded params object (dtypes.py:330-342),
as invoked by `from_json`.  The membership test at dtypes.py:331 builds a
`TypeError` without raising it; decoded objects are never Python sets, so
the `is_set or isinstance(val, set)` branch is entered exactly when
`is_set` is truthy, and its assertion accepts only a list. -/
def const_init_pobj (val : PObj) (is_set : Bool) : Except PyErr Instance :=
  if is_set then
    match val with
    | .list _ =>
      Except.ok (params_update ⟨.const⟩
        [("val", val), ("is_set", PObj.val (PyVal.bool true))])
    | _ => Except.error PyErr.assertionError
  else
    Except.ok (params_update ⟨.const⟩
      [("val", val), ("is_set", PObj.val (PyVal.bool is_set))])

/-- `cls(**kwargs)` for each registered variant, with decoded keyword
arguments.  The seven parameterless variants inherit `Type.__init__`
(dtypes.py:164-165), whose `*args, **kwargs` signature accepts anything.
`ObjectType.__init__` (dtypes.py:315) requires exactly `class_name`.
`ConstType.__init__` accepts `val`/`is_set`.  `UnionType.__init__`
(dtypes.py:418-427) accepts `allowed_types` (`None` or a list, enforced by
its assertion) and maps `type_from_dtype` over the list.
`ListType.__init__` (dtypes.py:474-480) accepts `element_type`.
`DictType.__init__` (dtypes.py:554-565) accepts `type_map` and maps
`type_from_dtype` over its values; iterating a decoded non-dict,
non-`None` object as a mapping raises `TypeError`.  The computed params of
every constructor are discarded by the `params` getter. -/
def construct_with_kwargs (c : WBClass) (kwargs : List (String × PObj)) :
    Except PyErr Instance :=
  match c with
  | .object =>
    match kwargs with
    | [(k, _)] =>
      if k = "class_name" then Except.ok ⟨.object⟩
      else Except.error (PyErr.typeError "unexpected keyword argument")
    | _ =>
      Except.error (PyErr.typeError "missing required argument class_name")
  | .const =>
    if kwargsKeysOk kwargs ["val", "is_set"] then
      const_init_pobj ((pLookup kwargs "val").getD (PObj.val PyVal.none))
        (((pLookup kwargs "is_set").map pobjTruthy).getD false)
    else Except.error (PyErr.typeError "unexpected keyword argument")
  | .union =>
    if kwargsKeysOk kwargs ["allowed_types"] then
      match (pLookup kwargs "allowed_types").getD (PObj.val PyVal.none) with
      | PObj.val PyVal.none => Except.ok ⟨.union⟩
      | PObj.list xs =>
        match dtypeList xs with
        | Except.error e => Except.error e
        | Except.ok ts =>
          Except.ok (params_update ⟨.union⟩
            [("allowed_types", PObj.list (ts.map PObj.ty))])
      | _ => Except.error PyErr.assertionError
    else Except.error (PyErr.typeError "unexpected keyword argument")
  | .list =>
    if kwargsKeysOk kwargs ["element_type"] then
      match (pLookup kwargs "element_type").getD (PObj.val PyVal.none) with
      | PObj.val PyVal.none => Except.ok ⟨.list⟩
      | p =>
        match type_from_dtype_pobj p with
        | Except.error e => Except.error e
        | Except.ok t =>
          Except.ok (params_update ⟨.list⟩ [("element_type", PObj.ty t)])
    else Except.error (PyErr.typeError "unexpected keyword argument")
  | .dict =>
    if kwargsKeysOk kwargs ["type_map"] then
      match (pLookup kwargs "type_map").getD (PObj.val PyVal.none) with
      | PObj.val PyVal.none => Except.ok ⟨.dict⟩
      | PObj.dict es =>
        match dtypeList (es.map (fun kv => kv.2)) with
        | Except.error e => Except.error e
        | Except.ok ts =>
          Except.ok (params_update ⟨.dict⟩
            [("type_map", PObj.dict ((es.map (fun kv => kv.1)).zip (ts.map PObj.ty)))])
      | _ => Except.error (PyErr.typeError "argument is not a mapping")
    else Except.error (PyErr.typeError "unexpected keyword argument")
  | _ => Except.ok ⟨c⟩

mutual

/-- Structural size of a JSON value, used only for fuel bounds. -/
def jSize : J → Nat
  | .null => 1
  | .bool _ => 1
  | .num _ => 1
  | .str _ => 1
  | .arr xs => 1 + jSizeL xs
  | .obj es => 1 + jSizeO es

/-- Structural size of a JSON array's elements. -/
def jSizeL : List J → Nat
  | [] => 1
  | x :: rest => 1 + jSize x + jSizeL rest

/-- Structural size of a JSON object's fields. -/
def jSizeO : List (String × J) → Nat
  | [] => 1
  | (_, v) :: rest => 1 + jSize v + jSizeO rest

end

/-- Fuel bound for the `type_from_dict` recursion. -/
def jFuel (j : J) : Nat :=
  4 * jSize j + 4

mutual

/-- `TypeRegistry.type_from_dict` (dtypes.py:52-62).  When `wb_type` is
missing (or `None`), the `TypeError` at dtypes.py:58 is constructed but
not raised; the subsequent name lookup misses, the `TypeError` at
dtypes.py:61 is likewise not raised, and the call crashes with
`AttributeError` on `None.from_json` at dtypes.py:62.  An unregistered
(or non-string) `wb_type` takes the same path.  A registered name
dispatches to that variant's `from_json`. -/
def type_from_dictF : Nat → J → Except PyErr Instance
  | 0, _ => Except.error PyErr.fuelExhausted
  | fuel+1, j =>
    match j with
    | .obj es =>
      match jLookup es "wb_type" with
      | Option.some (J.str n) =>
        match lookup_types_by_name n with
        | Option.some c => cls_from_jsonF fuel c es
        | Option.none =>
          Except.error (PyErr.attributeError "NoneType has no attribute from_json")
      | _ =>
        Except.error (PyErr.attributeError "NoneType has no attribute from_json")
    | _ => Except.error (PyErr.attributeError "object has no attribute get")

/-- `Type.from_json` (dtypes.py:218-232):
`cls(**_json_obj_to_params_obj(json_dict.get("params", {}), artifact))` —
the decoded params must be a mapping for the `**` unpacking. -/
def cls_from_jsonF : Nat → WBClass → List (String × J) → Except PyErr Instance
  | 0, _, _ => Except.error PyErr.fuelExhausted
  | fuel+1, c, es =>
    match json_to_params_objF fuel ((jLookup es "params").getD (J.obj [])) with
    | Except.error e => Except.error e
    | Except.ok (PObj.dict kwargs) => construct_with_kwargs c kwargs
    | Except.ok _ =>
      Except.error (PyErr.typeError "argument after ** must be a mapping")

/-- `_json_obj_to_params_obj` (dtypes.py:127-142): a dict containing the
`wb_type` key is resolved back into a descriptor through the registry;
other dicts and lists are decoded pointwise; scalars pass through. -/
def json_to_params_objF : Nat → J → Except PyErr PObj
  | 0, _ => Except.error PyErr.fuelExhausted
  | fuel+1, j =>
    match j with
    | .obj es =>
      if (jLookup es "wb_type").isSome then
        match type_from_dictF fuel j with
        | Except.error e => Except.error e
        | Except.ok t => Except.ok (PObj.ty t)
      else
        match json_fieldsF fuel es with
        | Except.error e => Except.error e
        | Except.ok fs => Except.ok (PObj.dict fs)
    | .arr xs =>
      match json_itemsF fuel xs with
      | Except.error e => Except.error e
      | Except.ok ps => Except.ok (PObj.list ps)
    | .null => Except.ok (PObj.val PyVal.none)
    | .bool b => Except.ok (PObj.val (PyVal.bool b))
    | .num n => Except.ok (PObj.val (PyVal.int n))
    | .str s => Except.ok (PObj.val (PyVal.str s))

/-- The field comprehension of `_json_obj_to_params_obj`
(dtypes.py:135-138). -/
def json_fieldsF : Nat → List (String × J) → Except PyErr (List (String × PObj))
  | 0, _ => Except.error PyErr.fuelExhausted
  | _+1, [] => Except.ok []
  | fuel+1, (k, v) :: rest =>
    match json_to_params_objF fuel v with
    | Except.error e => Except.error e
    | Except.ok p =>
      match json_fieldsF fuel rest with
      | Except.error e => Except.error e
      | Except.ok ps => Except.ok ((k, p) :: ps)

/-- The list comprehension of `_json_obj_to_params_obj`
(dtypes.py:139-140). -/
def json_itemsF : Nat → List J → Except PyErr (List PObj)
  | 0, _ => Except.error PyErr.fuelExhausted
  | _+1, [] => Except.ok []
  | fuel+1, x :: rest =>
    match json_to_params_objF fuel x with
    | Except.error e => Except.error e
    | Except.ok p =>
      match json_itemsF fuel rest with
      | Except.error e => Except.error e
      | Except.ok ps => Except.ok (p :: ps)

end

/-- `TypeRegistry.type_from_dict` with the fuel bound supplied. -/
def type_from_dict (j : J) : Except PyErr Instance :=
  type_from_dictF (jFuel j) j

/-- C1: the claim states that `from_json(to_json(T)) == T` for every
descriptor constructible by the built-in variants.  On the code this fails
at `T = ObjectType("Example")`: because the `params` getter returns the
empty dict, `to_json` emits only the variant name, and deserialising calls
`ObjectType()` without its required `class_name` argument, raising
`TypeError` instead of returning a descriptor.  The final conjunct shows
the model is not degenerate: a parameterless variant does round-trip. -/
theorem c1_roundtrip_object_raises :
    to_json (ObjectType_init "Example") = J.obj [("wb_type", J.str "object")] ∧
    type_from_dict (to_json (ObjectType_init "Example")) =
      Except.error (PyErr.typeError "missing required argument class_name") ∧
    type_from_dict (to_json ⟨.number⟩) = Except.ok ⟨.number⟩ := by
  exact ⟨rfl, rfl, rfl⟩

/-- C2: the claim states that assigning a `Number` value to
`Union([String, Unknown])` yields `Union([String, Number])`.  On the code,
`UnionType.assign` reads `self.params["allowed_types"]` and the `params`
getter returns the empty dict, so the call raises `KeyError`.  The second
conjunct runs `_union_assigner` directly on the branch list that the
constructor computed and discarded: the resolution logic itself does
produce the claimed branches `[number, text]` (canonically sorted), with
the `Unknown` slot and not the `String` slot consumed. -/
theorem c2_union_assign_raises_keyerror :
    instance_assign (UnionType_init (Option.some [⟨.text⟩, ⟨.unknown⟩])) (.int 3) =
      Except.error (PyErr.keyError "allowed_types") ∧
    union_assigner [⟨.text⟩, ⟨.unknown⟩] (Sum.inl (.int 3)) =
      Except.ok (UAResult.resolved [⟨.number⟩, ⟨.text⟩]) := by
  exact ⟨rfl, rfl⟩

/-- C3: the claim states that `Dictionary({"a": Number}).assign` returns
`Never` for a dict with an extra key and a `Dictionary` for an exact key
match.  On the code both calls raise `KeyError`: `DictType.assign` reads
`self.params["type_map"]` once the argument is a dict, and the `params`
getter returns the empty dict.  (Only non-dict arguments reach the
`NeverType()` branch, as the last conjunct shows.) -/
theorem c3_dict_assign_raises_keyerror :
    instance_assign (DictType_init (Option.some [("a", ⟨.number⟩)]))
        (.dict [("a", .int 1), ("b", .int 2)]) =
      Except.error (PyErr.keyError "type_map") ∧
    instance_assign (DictType_init (Option.some [("a", ⟨.number⟩)]))
        (.dict [("a", .int 1)]) =
      Except.error (PyErr.keyError "type_map") ∧
    instance_assign (DictType_init (Option.some [("a", ⟨.number⟩)])) (.int 0) =
      Except.ok ⟨.never⟩ := by
  exact ⟨rfl, rfl, rfl⟩

/-- C4: the claim states that `List().assign([1, 2, "x"])` yields
`List(Union([Number, String]))`.  On the code, `ListType.assign` reads
`self.params["element_type"]` once the argument is list-like, and the
`params` getter returns the empty dict, so the call raises `KeyError`
(non-collections still reach the `NeverType()` branch, last conjunct). -/
theorem c4_list_assign_raises_keyerror :
    instance_assign (ListType_init Option.none) (.list [.int 1, .int 2, .str "x"]) =
      Except.error (PyErr.keyError "element_type") ∧
    instance_assign (ListType_init Option.none) (.int 0) = Except.ok ⟨.never⟩ := by
  exact ⟨rfl, rfl⟩

/-- C5: the claim states that `type_from_dict` on JSON missing `wb_type`
or naming an unregistered variant signals an explicit error (not a crash
by accident, not `Never`), and that `ConstType` on an unsupported native
kind signals an error.  On the code, the `TypeError` at dtypes.py:58 and
dtypes.py:61 is constructed but never raised, so both lookups fall through
to `None.from_json` and crash with `AttributeError`; and the `TypeError`
at dtypes.py:332 is likewise never raised, so `ConstType({"a": 1})`
silently succeeds. -/
theorem c5_protocol_errors_not_signaled :
    type_from_dict (J.obj [("a", J.num 1)]) =
      Except.error (PyErr.attributeError "NoneType has no attribute from_json") ∧
    type_from_dict (J.obj [("wb_type", J.str "gibberish")]) =
      Except.error (PyErr.attributeError "NoneType has no attribute from_json") ∧
    ConstType_init (.dict [("a", .int 1)]) false = Except.ok ⟨.const⟩ := by
  exact ⟨rfl, rfl, rfl⟩

/-- C6: the claim states that `type_of` never fails.  On the code,
`type_of([None])` raises `TypeError`: `ListType.from_obj` seeds the
element type with `OptionalType(UnknownType())`, and `OptionalType` passes
the module-level alias `ConvertableToType` — not its argument — to
`type_from_dtype`, where the unguarded `issubclass` raises.  A nested list
of lists independently raises `KeyError` (the running element type becomes
a `ListType`, whose `assign` reads the discarded params).  The fallback to
`ObjectType` for unregistered classes does work (last conjunct). -/
theorem c6_type_of_not_total :
    type_of (.list [.none]) =
      Except.error (PyErr.typeError "issubclass() arg 1 must be a class") ∧
    type_of (.list [.list [.int 1], .list [.int 2]]) =
      Except.error (PyErr.keyError "element_type") ∧
    type_of (.obj "Foo") = Except.ok ⟨.object⟩ := by
  exact ⟨rfl, rfl, rfl⟩

/-- C7: the claim states that union branches are flattened recursively and
kept in canonical order at construction.  On the code, `UnionType.__init__`
maps `type_from_dtype` over the given branches and applies neither
`_flatten_union_types` nor a sort: the branch list it computes for
`Union([Union([A, B]), C])` still contains a nested `Union` (first two
conjuncts) — and the `params` getter then discards that list entirely.
The equality `Union([Union([A, B]), C]) == Union([A, B, C])` asserted by
the claim does hold (last conjunct), but only because `__eq__` degenerates
to comparing variant names. -/
theorem c7_union_construction_does_not_flatten :
    unionInit_wb_types
        (Option.some [UnionType_init (Option.some [⟨.text⟩, ⟨.boolean⟩]), ⟨.number⟩]) =
      [⟨.union⟩, ⟨.number⟩] ∧
    (unionInit_wb_types
        (Option.some [UnionType_init (Option.some [⟨.text⟩, ⟨.boolean⟩]), ⟨.number⟩])).any
      (fun t => t.cls == .union) = true ∧
    py_eq
      (UnionType_init
        (Option.some [UnionType_init (Option.some [⟨.text⟩, ⟨.boolean⟩]), ⟨.number⟩]))
      (UnionType_init (Option.some [⟨.text⟩, ⟨.boolean⟩, ⟨.number⟩])) = true := by
  exact ⟨rfl, rfl, rfl⟩

/-- C8: the claim states `Never.assign_type(X) == Never` for every
descriptor `X` and `Any.assign(x) == Any` for every native value `x`
except the absence-of-value marker (which yields `Never`).  The `Never`
half holds (first conjunct), but the `Any` half fails on the code: for
`x = [None]`, `type_of` raises `TypeError` through the `OptionalType` slip
inside `ListType.from_obj`, so `Any().assign([None])` crashes instead of
returning `Any`.  The last two conjuncts show the claimed behaviour on
inputs where `type_of` succeeds. -/
theorem c8_never_absorbs_but_any_assign_raises :
    (∀ X : Instance, instance_assign_type ⟨.never⟩ X = Except.ok ⟨.never⟩) ∧
    instance_assign ⟨.any⟩ (.list [.none]) =
      Except.error (PyErr.typeError "issubclass() arg 1 must be a class") ∧
    instance_assign ⟨.any⟩ .none = Except.ok ⟨.never⟩ ∧
    instance_assign ⟨.any⟩ (.int 7) = Except.ok ⟨.any⟩ := by
  exact ⟨fun _ => rfl, rfl, rfl, rfl⟩

/-- C9: for every built-in descriptor, the public `params` property is the
empty mapping regardless of constructor arguments, `to_json` therefore
omits the `params` key for every descriptor, and two descriptors compare
equal exactly when their variant names are equal. -/
theorem c9_params_empty_to_json_minimal_eq_by_name :
    (∀ cn, Type_params (ObjectType_init cn) = []) ∧
    (∀ ts, Type_params (UnionType_init ts) = []) ∧
    (∀ et, Type_params (ListType_init et) = []) ∧
    (∀ tm, Type_params (DictType_init tm) = []) ∧
    (∀ i : Instance, to_json i = J.obj [("wb_type", J.str (wbName i.cls))]) ∧
    (∀ i j : Instance, py_eq i j = true ↔ wbName i.cls = wbName j.cls) := by
  refine ⟨fun _ => rfl, fun _ => rfl, fun _ => rfl, fun _ => rfl, fun _ => rfl, ?_⟩
  intro i j
  obtain ⟨c1⟩ := i
  obtain ⟨c2⟩ := j
  cases c1 <;> cases c2 <;> decide

/-- C10 counterexample: the claim, as stated, says assigning the `None`
type to a union whose only branch is `Unknown` returns a union containing
the `None` type.  On the code, `UnionType.assign_type` reads
`self.params["allowed_types"]`, which the `params` getter discarded, so
the call raises `KeyError` and returns no union at all. -/
theorem c10_union_assign_type_raises_keyerror :
    instance_assign_type (UnionType_init (Option.some [⟨.unknown⟩])) ⟨.none⟩ =
      Except.error (PyErr.keyError "allowed_types") := by
  exact rfl

/-- C10 (amended): in type mode, when no concrete branch matches and at
least one `Unknown` branch remains, `_union_assigner` appends the incoming
descriptor itself rather than passing it through a fresh `Unknown`:
resolving the `None` descriptor against the branch list `[Unknown]` yields
`[none]` rather than `Never` (first conjunct), whereas in value mode the
absence-of-value marker is rejected by the wildcard branch (second
conjunct); a non-`None` descriptor is appended the same way (third
conjunct). -/
theorem c10_union_assigner_type_mode_appends_descriptor :
    union_assigner [⟨.unknown⟩] (Sum.inr ⟨.none⟩) =
      Except.ok (UAResult.resolved [⟨.none⟩]) ∧
    union_assigner [⟨.unknown⟩] (Sum.inl .none) = Except.ok UAResult.never ∧
    union_assigner [⟨.unknown⟩] (Sum.inr ⟨.any⟩) =
      Except.ok (UAResult.resolved [⟨.any⟩]) := by
  exact ⟨rfl, rfl, rfl⟩
